import Mathlib

/-!
# baton-metabase-v049: user lifecycle actions and database grants

A shallow embedding of `pkg/connector/actions.go` (the handlers
`EnableUserV049` and `DisableUserV049`) together with the parts of the Go
libraries they touch: `structpb` values, Go errors with `%w` wrapping,
`status.FromError`, and the SDK's annotation slice.

Remote collaborators (`GetUserByID`, `EnableUser`, `DisableUser`) are
arbitrary state-passing functions over a remote state `σ`; every invocation
is recorded in a call log so that "called exactly once / never called" can be
stated.  A nil-pointer dereference is an explicit outcome (`ret = none`).

`databaseBuilder.Grants` lives in a file that is not among the sources (only
its test is); it is modelled from the specification, section 4.1.
-/

namespace Metabase049

/-! ## gRPC codes and Go errors -/

/-- The gRPC status codes of `google.golang.org/grpc/codes`. -/
inductive Code where
  | OK
  | Canceled
  | Unknown
  | InvalidArgument
  | DeadlineExceeded
  | NotFound
  | AlreadyExists
  | PermissionDenied
  | ResourceExhausted
  | FailedPrecondition
  | Aborted
  | OutOfRange
  | Unimplemented
  | Internal
  | Unavailable
  | DataLoss
  | Unauthenticated
  deriving DecidableEq, Repr

/-- The `String()` method of a code, used when a status error is printed. -/
def Code.String : Code → String
  | .OK => "OK"
  | .Canceled => "Canceled"
  | .Unknown => "Unknown"
  | .InvalidArgument => "InvalidArgument"
  | .DeadlineExceeded => "DeadlineExceeded"
  | .NotFound => "NotFound"
  | .AlreadyExists => "AlreadyExists"
  | .PermissionDenied => "PermissionDenied"
  | .ResourceExhausted => "ResourceExhausted"
  | .FailedPrecondition => "FailedPrecondition"
  | .Aborted => "Aborted"
  | .OutOfRange => "OutOfRange"
  | .Unimplemented => "Unimplemented"
  | .Internal => "Internal"
  | .Unavailable => "Unavailable"
  | .DataLoss => "DataLoss"
  | .Unauthenticated => "Unauthenticated"

/-- A Go `error` value (non-nil).  `errorString` is what `errors.New` and
`fmt.Errorf` without `%w` build, `statusError` is `status.Error(code, msg)`,
and `wrapError` is what `fmt.Errorf` with one `%w` verb builds: the formatted
message together with the wrapped cause. -/
inductive GoError where
  | errorString (s : String)
  | statusError (code : Code) (msg : String)
  | wrapError (msg : String) (err : GoError)
  deriving DecidableEq, Repr

/-- The `Error()` method: the message of an error. -/
def GoError.Error : GoError → String
  | .errorString s => s
  | .statusError c m => "rpc error: code = " ++ c.String ++ " desc = " ++ m
  | .wrapError m _ => m

/-- The `Unwrap()` method (`errors.Unwrap`): the wrapped cause, if any. -/
def GoError.Unwrap : GoError → Option GoError
  | .wrapError _ e => some e
  | _ => none

/-- The call `fmt.Errorf("<pre>%s: %w", id, err)`: the message is the prefix,
the id, a colon and the cause's message; the cause is wrapped. -/
def fmtErrorfW (pre id : String) (err : GoError) : GoError :=
  .wrapError (pre ++ id ++ ": " ++ err.Error) err

/-- The first error on the `Unwrap` chain that carries a gRPC status
(the `errors.As` search for a `GRPCStatus()` implementor). -/
def grpcStatusOf : GoError → Option Code
  | .errorString _ => none
  | .statusError c _ => some c
  | .wrapError _ e => grpcStatusOf e

/-- The function `status.FromError` on a non-nil error, reduced to the code
of the returned status and the `ok` flag: an error without a status anywhere
on its chain yields `(Unknown, false)`. -/
def statusFromError (err : GoError) : Code × Bool :=
  match grpcStatusOf err with
  | some c => (c, true)
  | none => (Code.Unknown, false)

/-- The handlers' test `st, ok := status.FromError(err); ok && st.Code() == codes.NotFound`. -/
def isNotFound (err : GoError) : Bool :=
  (statusFromError err).2 && decide ((statusFromError err).1 = Code.NotFound)

/-! ## structpb values -/

/-- A `structpb.Value`: `unset` is a value whose `Kind` is nil; a number is
kept as the bit pattern of its float64, which the handlers never inspect. -/
inductive Value where
  | unset
  | nullValue
  | numberValue (bits : Nat)
  | stringValue (s : String)
  | boolValue (b : Bool)
  | structValue (fields : List (String × Option Value))
  | listValue (values : List (Option Value))

/-- A `structpb.Struct`: the `Fields` map from names to value pointers
(a pointer may be nil).  The map is an association list read by first match. -/
structure Struct where
  Fields : List (String × Option Value)

/-- A Go map read `m[k]` in comma-ok form: `none` when the key is absent. -/
def mapLookup {α : Type} : List (String × α) → String → Option α
  | [], _ => none
  | (k, v) :: rest, key => if k = key then some v else mapLookup rest key

/-- The method `(*Value).GetStringValue`: the string of a string-kinded value,
and the empty string for a nil receiver or any other kind. -/
def GetStringValue : Option Value → String
  | some (.stringValue s) => s
  | _ => ""

/-- The literal `&structpb.Struct{Fields: {"success": structpb.NewBoolValue(true)}}`. -/
def successStruct : Struct :=
  ⟨[("success", some (Value.boolValue true))]⟩

/-! ## Annotations -/

/-- A `v2.RateLimitDescription` message. -/
structure RateLimitDescription where
  Status : Nat
  Limit : Int
  Remaining : Int
  ResetAt : Option Int
  deriving DecidableEq, Repr

/-- A packed annotation (`anypb.Any`): either a packed rate-limit description
or some other message given by its type URL and bytes. -/
inductive AnyMsg where
  | rateLimit (d : RateLimitDescription)
  | other (typeUrl : String) (value : List Nat)
  deriving DecidableEq, Repr

/-- The SDK type `annotations.Annotations`, a slice of packed messages. -/
abbrev Annotations := List AnyMsg

/-- The constructor `annotations.New()` with no messages: an empty, non-nil slice. -/
def Annotations.New : Annotations := []

/-- The test `v.MessageIs(rateLimit)`: is the packed message a rate-limit description. -/
def AnyMsg.isRateLimit : AnyMsg → Bool
  | .rateLimit _ => true
  | .other _ _ => false

/-- The method `Annotations.Update` for a rate-limit description: an annotation of
the same message type is replaced in place, otherwise the message is appended. -/
def Annotations.Update (a : Annotations) (d : RateLimitDescription) : Annotations :=
  if a.any AnyMsg.isRateLimit then
    a.map (fun v => if v.isRateLimit then AnyMsg.rateLimit d else v)
  else a ++ [AnyMsg.rateLimit d]

/-- The method `Annotations.WithRateLimiting`: updates the slice with the description. -/
def Annotations.WithRateLimiting (a : Annotations) (d : RateLimitDescription) : Annotations :=
  a.Update d

/-- The method `Annotations.Merge`: appends the given annotations. -/
def Annotations.Merge (a : Annotations) (more : List AnyMsg) : Annotations :=
  a ++ more

/-! ## Remote collaborators -/

/-- The base client's user record; `IsActive` is the only field the handlers read. -/
structure User where
  IsActive : Bool
  deriving DecidableEq, Repr

/-- What `GetUserByID` returns: a user pointer, a rate-limit pointer and an error. -/
structure LookupResult where
  user : Option User
  rateLimitDesc : Option RateLimitDescription
  err : Option GoError

/-- What `EnableUser` / `DisableUser` return: a response pointer, an annotation
slice (possibly nil) and an error. -/
structure ActionResult where
  resp : Option Struct
  ann : Option Annotations
  err : Option GoError

/-- The two collaborators of the connector, as state-passing functions over
the remote system's state: `vBaseClient.GetUserByID` and the base connector's
`EnableUser` and `DisableUser`. -/
structure Connector (σ : Type) where
  GetUserByID : String → σ → LookupResult × σ
  EnableUser : Option Struct → σ → ActionResult × σ
  DisableUser : Option Struct → σ → ActionResult × σ

/-- One remote call made by a handler, with its argument. -/
inductive Call where
  | GetUserByID (userId : String)
  | EnableUser (args : Option Struct)
  | DisableUser (args : Option Struct)

/-- Is the call a `GetUserByID` call. -/
def Call.isGetUserByID : Call → Bool
  | .GetUserByID _ => true
  | _ => false

/-- Is the call an `EnableUser` call. -/
def Call.isEnableUser : Call → Bool
  | .EnableUser _ => true
  | _ => false

/-- Is the call a `DisableUser` call. -/
def Call.isDisableUser : Call → Bool
  | .DisableUser _ => true
  | _ => false

/-- The triple a handler returns. -/
structure Return where
  resp : Option Struct
  ann : Annotations
  err : Option GoError

/-- The outcome of running a handler: what it returned (`none` when it
panicked on a nil pointer), the remote calls it made in order, and the remote
state afterwards. -/
structure Outcome (σ : Type) where
  ret : Option Return
  calls : List Call
  remote : σ

/-- The step `if rateLimitDesc != nil { ann.WithRateLimiting(rateLimitDesc) }`. -/
def withRateLimit (ann : Annotations) : Option RateLimitDescription → Annotations
  | some d => ann.WithRateLimiting d
  | none => ann

/-- The step `if ann2 != nil { ann.Merge(ann2...) }`. -/
def mergeAnn (ann : Annotations) : Option Annotations → Annotations
  | some ann2 => ann.Merge ann2
  | none => ann

/-! ## The handlers of actions.go -/

/-- The handler `Connector.EnableUserV049`. -/
def EnableUserV049 {σ : Type} (c : Connector σ) (args : Option Struct) (s : σ) : Outcome σ :=
  let ann := Annotations.New
  match args with
  | none => ⟨none, [], s⟩
  | some a =>
    match mapLookup a.Fields "userId" with
    | none => ⟨some ⟨none, ann, some (.errorString "userId field is required")⟩, [], s⟩
    | some none => ⟨some ⟨none, ann, some (.errorString "userId field is required")⟩, [], s⟩
    | some (some v) =>
      let userId := GetStringValue (some v)
      if userId = "" then
        ⟨some ⟨none, ann, some (.errorString "userId cannot be empty")⟩, [], s⟩
      else
        let r := c.GetUserByID userId s
        let ann := withRateLimit ann r.1.rateLimitDesc
        match r.1.err with
        | some err =>
          if isNotFound err then
            let m := c.EnableUser args r.2
            let ann := mergeAnn ann m.1.ann
            match m.1.err with
            | some err2 =>
              ⟨some ⟨none, ann, some (fmtErrorfW "failed to enable user " userId err2)⟩,
                [Call.GetUserByID userId, Call.EnableUser args], m.2⟩
            | none =>
              ⟨some ⟨m.1.resp, ann, none⟩, [Call.GetUserByID userId, Call.EnableUser args], m.2⟩
          else
            ⟨some ⟨none, ann, some (fmtErrorfW "failed to fetch user " userId err)⟩,
              [Call.GetUserByID userId], r.2⟩
        | none =>
          ⟨some ⟨some successStruct, ann, none⟩, [Call.GetUserByID userId], r.2⟩

/-- The handler `Connector.DisableUserV049`.  Reading `user.IsActive` through a
nil user pointer (a nil error returned with a nil user) panics. -/
def DisableUserV049 {σ : Type} (c : Connector σ) (args : Option Struct) (s : σ) : Outcome σ :=
  let ann := Annotations.New
  match args with
  | none => ⟨none, [], s⟩
  | some a =>
    match mapLookup a.Fields "userId" with
    | none => ⟨some ⟨none, ann, some (.errorString "userId field is required")⟩, [], s⟩
    | some none => ⟨some ⟨none, ann, some (.errorString "userId field is required")⟩, [], s⟩
    | some (some v) =>
      let userId := GetStringValue (some v)
      if userId = "" then
        ⟨some ⟨none, ann, some (.errorString "userId cannot be empty")⟩, [], s⟩
      else
        let r := c.GetUserByID userId s
        let ann := withRateLimit ann r.1.rateLimitDesc
        match r.1.err with
        | some err =>
          if isNotFound err then
            ⟨some ⟨some successStruct, ann, none⟩, [Call.GetUserByID userId], r.2⟩
          else
            ⟨some ⟨none, ann, some (fmtErrorfW "failed to fetch user " userId err)⟩,
              [Call.GetUserByID userId], r.2⟩
        | none =>
          match r.1.user with
          | none => ⟨none, [Call.GetUserByID userId], r.2⟩
          | some user =>
            if user.IsActive then
              let m := c.DisableUser args r.2
              let ann := mergeAnn ann m.1.ann
              match m.1.err with
              | some err2 =>
                ⟨some ⟨none, ann, some (fmtErrorfW "failed to disable user " userId err2)⟩,
                  [Call.GetUserByID userId, Call.DisableUser args], m.2⟩
              | none =>
                ⟨some ⟨m.1.resp, ann, none⟩,
                  [Call.GetUserByID userId, Call.DisableUser args], m.2⟩
            else
              ⟨some ⟨some successStruct, ann, none⟩, [Call.GetUserByID userId], r.2⟩

/-- The `userId` a handler works with: the string value of `Fields["userId"]`,
empty when the bag is nil, the key is absent, or the value is nil or not a string. -/
def userIdOf (args : Option Struct) : String :=
  match args with
  | none => ""
  | some a =>
    match mapLookup a.Fields "userId" with
    | some v => GetStringValue v
    | none => ""

/-- An argument bag holding just the string field `userId`. -/
def argsFor (userId : String) : Option Struct :=
  some ⟨[("userId", some (Value.stringValue userId))]⟩

/-- The argument bag `args` is non-nil and carries the non-empty string `userId`
under the key `userId`. -/
def hasUserId (args : Option Struct) (userId : String) : Prop :=
  ∃ a, args = some a ∧
    mapLookup a.Fields "userId" = some (some (Value.stringValue userId)) ∧ userId ≠ ""

/-- A response that is a non-nil struct whose field `success` is the boolean true. -/
def isSuccess (resp : Option Struct) : Prop :=
  ∃ st, resp = some st ∧ mapLookup st.Fields "success" = some (some (Value.boolValue true))

/-- A connector over a stateless remote whose lookup and mutations answer with
fixed results, used to exercise single branches of the handlers. -/
def scripted (look : LookupResult) (act : ActionResult) : Connector Unit :=
  ⟨fun _ s => (look, s), fun _ s => (act, s), fun _ s => (act, s)⟩

/-- A model remote whose state is the list of active user ids: the lookup
finds exactly the active users and answers NotFound for the others; the
mutations switch the user named by the argument bag on or off. -/
def modelRemote : Connector (List String) :=
  ⟨fun id s =>
      if id ∈ s then (⟨some ⟨true⟩, none, none⟩, s)
      else (⟨none, none, some (.statusError Code.NotFound "user not found")⟩, s),
   fun args s => (⟨some successStruct, none, none⟩, userIdOf args :: s),
   fun args s => (⟨some successStruct, none, none⟩, s.filter (fun u => u ≠ userIdOf args))⟩

/-! ## Database grants (the permission-matrix translator) -/

/-- The nested `Data` structure of a group permission (`client.DataAccessDetails`). -/
structure DataAccessDetails where
  NativePermission : String
  deriving DecidableEq, Repr

/-- The per (group, database) entry of the permission matrix (`client.GroupPermission`);
as in the specification's data model the nested `Data` structure is always present. -/
structure GroupPermission where
  Data : DataAccessDetails
  deriving DecidableEq, Repr

/-- The permission matrix: group id to database id to group permission.  Both Go
maps are association lists read by first match; a Go map has each key once. -/
abbrev PermissionMatrix := List (String × List (String × GroupPermission))

/-- The two entitlements of a database. -/
inductive Entitlement where
  | access
  | write
  deriving DecidableEq, Repr

/-- A grant: the group that is the principal, the entitlement, and the database. -/
structure Grant where
  principal : String
  entitlement : Entitlement
  resource : String
  deriving DecidableEq, Repr

/-- The id of an SDK resource (`v2.ResourceId`). -/
structure ResourceId where
  ResourceType : String
  Resource : String
  deriving DecidableEq, Repr

/-- An SDK resource (`v2.Resource`) as the tests build it. -/
structure Resource where
  Id : ResourceId
  DisplayName : String
  deriving DecidableEq, Repr

/-- What `GetDBPermissions` returns: the matrix, a rate-limit pointer and an error. -/
structure MatrixResult where
  matrix : PermissionMatrix
  rateLimit : Option RateLimitDescription
  err : Option GoError

/-- What `Grants` returns: the grants (`none` is a nil slice), the continuation
token, the annotations and the error. -/
structure GrantsReturn where
  grants : Option (List Grant)
  nextPageToken : String
  ann : Annotations
  err : Option GoError

/-- The entry of the matrix for database `d` under group `g`, if there is one. -/
def matrixGet (m : PermissionMatrix) (g d : String) : Option GroupPermission :=
  (mapLookup m g).bind (fun dbs => mapLookup dbs d)

/-- Modelled from the spec: the grants one group contributes in `databaseBuilder.Grants`
(`databases.go` is not among the sources).  Section 4.1: look up the entry for the database; if
absent emit nothing; if present always emit `access`, and additionally `write` iff
`Data.NativePermission == "write"`. -/
def groupGrants (g : String) (dbs : List (String × GroupPermission)) (d : String) : List Grant :=
  match mapLookup dbs d with
  | none => []
  | some p =>
    if p.Data.NativePermission = "write" then [⟨g, .access, d⟩, ⟨g, .write, d⟩]
    else [⟨g, .access, d⟩]

/-- Modelled from the spec: the loop of `databaseBuilder.Grants` over every group present in
the matrix (`databases.go` is not among the sources). -/
def translateGrants : PermissionMatrix → String → List Grant
  | [], _ => []
  | (g, dbs) :: rest, d => groupGrants g dbs d ++ translateGrants rest d

/-- Modelled from the spec: `databaseBuilder.Grants` (`databases.go` is not among the sources;
only its test is).  Section 4.1: fetch the matrix for the resource's database id; surface any
rate-limit metadata whether or not the fetch failed; on failure return zero grants and the
error wrapped as "failed to list database permissions: <cause>"; on success translate the
matrix, with an empty continuation token. -/
def Grants (GetDBPermissions : String → MatrixResult) (resource : Resource) : GrantsReturn :=
  let r := GetDBPermissions resource.Id.Resource
  let ann := withRateLimit Annotations.New r.rateLimit
  match r.err with
  | some err =>
    ⟨none, "", ann, some (.wrapError ("failed to list database permissions: " ++ err.Error) err)⟩
  | none => ⟨some (translateGrants r.matrix resource.Id.Resource), "", ann, none⟩

/-- The string `t` occurs inside the string `s` (Go's `strings.Contains`). -/
def containsStr (s t : String) : Prop :=
  ∃ pre post : String, s = pre ++ t ++ post

/-- The database resource of the grants test: id "1", display name "SalesDB"; the id of
the database resource type is declared outside the sources and is never read by `Grants`. -/
def dbResource (resourceTypeId : String) : Resource :=
  ⟨⟨resourceTypeId, "1"⟩, "SalesDB"⟩

/-- The matrix of the grants test: group3 may write database "1", group4 has an
entry with an empty native permission. -/
def testMatrix : PermissionMatrix :=
  [("group3", [("1", ⟨⟨"write"⟩⟩)]), ("group4", [("1", ⟨⟨""⟩⟩)])]

/-! ## Helper lemmas -/

theorem isNotFound_iff (e : GoError) :
    isNotFound e = true ↔ statusFromError e = (Code.NotFound, true) := by
  unfold isNotFound
  rcases h : statusFromError e with ⟨c, ok⟩
  cases ok <;> simp

theorem enable_msg_ne_fetch_msg (a b : String) :
    "failed to enable user " ++ a ≠ "failed to fetch user " ++ b := by
  intro h
  have h2 := congrArg String.data h
  simp [String.data_append] at h2

theorem EnableUserV049_run {σ : Type} (c : Connector σ) (args : Option Struct)
    (userId : String) (s : σ) (hargs : hasUserId args userId) :
    EnableUserV049 c args s =
      match (c.GetUserByID userId s).1.err with
      | some err =>
        if isNotFound err then
          match (c.EnableUser args (c.GetUserByID userId s).2).1.err with
          | some err2 =>
            ⟨some ⟨none,
                mergeAnn (withRateLimit Annotations.New (c.GetUserByID userId s).1.rateLimitDesc)
                  (c.EnableUser args (c.GetUserByID userId s).2).1.ann,
                some (fmtErrorfW "failed to enable user " userId err2)⟩,
              [Call.GetUserByID userId, Call.EnableUser args],
              (c.EnableUser args (c.GetUserByID userId s).2).2⟩
          | none =>
            ⟨some ⟨(c.EnableUser args (c.GetUserByID userId s).2).1.resp,
                mergeAnn (withRateLimit Annotations.New (c.GetUserByID userId s).1.rateLimitDesc)
                  (c.EnableUser args (c.GetUserByID userId s).2).1.ann,
                none⟩,
              [Call.GetUserByID userId, Call.EnableUser args],
              (c.EnableUser args (c.GetUserByID userId s).2).2⟩
        else
          ⟨some ⟨none, withRateLimit Annotations.New (c.GetUserByID userId s).1.rateLimitDesc,
              some (fmtErrorfW "failed to fetch user " userId err)⟩,
            [Call.GetUserByID userId], (c.GetUserByID userId s).2⟩
      | none =>
        ⟨some ⟨some successStruct,
            withRateLimit Annotations.New (c.GetUserByID userId s).1.rateLimitDesc, none⟩,
          [Call.GetUserByID userId], (c.GetUserByID userId s).2⟩ := by
  obtain ⟨a, rfl, hlk, hne⟩ := hargs
  simp only [EnableUserV049, hlk, GetStringValue, hne, if_false]

theorem DisableUserV049_run {σ : Type} (c : Connector σ) (args : Option Struct)
    (userId : String) (s : σ) (hargs : hasUserId args userId) :
    DisableUserV049 c args s =
      match (c.GetUserByID userId s).1.err with
      | some err =>
        if isNotFound err then
          ⟨some ⟨some successStruct,
              withRateLimit Annotations.New (c.GetUserByID userId s).1.rateLimitDesc, none⟩,
            [Call.GetUserByID userId], (c.GetUserByID userId s).2⟩
        else
          ⟨some ⟨none, withRateLimit Annotations.New (c.GetUserByID userId s).1.rateLimitDesc,
              some (fmtErrorfW "failed to fetch user " userId err)⟩,
            [Call.GetUserByID userId], (c.GetUserByID userId s).2⟩
      | none =>
        match (c.GetUserByID userId s).1.user with
        | none => ⟨none, [Call.GetUserByID userId], (c.GetUserByID userId s).2⟩
        | some user =>
          if user.IsActive then
            match (c.DisableUser args (c.GetUserByID userId s).2).1.err with
            | some err2 =>
              ⟨some ⟨none,
                  mergeAnn (withRateLimit Annotations.New (c.GetUserByID userId s).1.rateLimitDesc)
                    (c.DisableUser args (c.GetUserByID userId s).2).1.ann,
                  some (fmtErrorfW "failed to disable user " userId err2)⟩,
                [Call.GetUserByID userId, Call.DisableUser args],
                (c.DisableUser args (c.GetUserByID userId s).2).2⟩
            | none =>
              ⟨some ⟨(c.DisableUser args (c.GetUserByID userId s).2).1.resp,
                  mergeAnn (withRateLimit Annotations.New (c.GetUserByID userId s).1.rateLimitDesc)
                    (c.DisableUser args (c.GetUserByID userId s).2).1.ann,
                  none⟩,
                [Call.GetUserByID userId, Call.DisableUser args],
                (c.DisableUser args (c.GetUserByID userId s).2).2⟩
          else
            ⟨some ⟨some successStruct,
                withRateLimit Annotations.New (c.GetUserByID userId s).1.rateLimitDesc, none⟩,
              [Call.GetUserByID userId], (c.GetUserByID userId s).2⟩ := by
  obtain ⟨a, rfl, hlk, hne⟩ := hargs
  simp only [DisableUserV049, hlk, GetStringValue, hne, if_false]

/-! ## Grants -/

theorem mapLookup_eq_some_of_mem {α : Type} (m : List (String × α)) (k : String) (v : α)
    (hnd : (m.map Prod.fst).Nodup) (hmem : (k, v) ∈ m) : mapLookup m k = some v := by
  induction m with
  | nil => cases hmem
  | cons hd tl ih =>
    obtain ⟨k0, v0⟩ := hd
    rw [List.map_cons, List.nodup_cons] at hnd
    rcases List.mem_cons.1 hmem with h | h
    · cases h
      simp [mapLookup]
    · have hne : k0 ≠ k := by
        rintro rfl
        exact hnd.1 (List.mem_map.2 ⟨(k0, v), h, rfl⟩)
      simp [mapLookup, hne, ih hnd.2 h]

theorem mem_of_mapLookup_eq_some {α : Type} (m : List (String × α)) (k : String) (v : α)
    (h : mapLookup m k = some v) : (k, v) ∈ m := by
  induction m with
  | nil => simp [mapLookup] at h
  | cons hd tl ih =>
    obtain ⟨k0, v0⟩ := hd
    by_cases hk : k0 = k
    · subst hk
      simp [mapLookup] at h
      simp [h]
    · simp [mapLookup, hk] at h
      exact List.mem_cons_of_mem _ (ih h)

theorem mem_translateGrants (m : PermissionMatrix) (d : String) (x : Grant) :
    x ∈ translateGrants m d ↔ ∃ g dbs, (g, dbs) ∈ m ∧ x ∈ groupGrants g dbs d := by
  induction m with
  | nil => simp [translateGrants]
  | cons hd tl ih =>
    obtain ⟨g0, dbs0⟩ := hd
    simp only [translateGrants, List.mem_append, ih, List.mem_cons, Prod.mk.injEq]
    constructor
    · rintro (h | ⟨g, dbs, hm, hx⟩)
      · exact ⟨g0, dbs0, Or.inl ⟨rfl, rfl⟩, h⟩
      · exact ⟨g, dbs, Or.inr hm, hx⟩
    · rintro ⟨g, dbs, (⟨rfl, rfl⟩ | hm), hx⟩
      · exact Or.inl hx
      · exact Or.inr ⟨g, dbs, hm, hx⟩

theorem mem_groupGrants (g : String) (dbs : List (String × GroupPermission)) (d : String)
    (x : Grant) :
    x ∈ groupGrants g dbs d ↔ ∃ p, mapLookup dbs d = some p ∧
      (x = ⟨g, .access, d⟩ ∨ (p.Data.NativePermission = "write" ∧ x = ⟨g, .write, d⟩)) := by
  unfold groupGrants
  cases h : mapLookup dbs d with
  | none => simp
  | some p =>
    by_cases hw : p.Data.NativePermission = "write" <;> simp [hw]

theorem mem_translateGrants_iff (m : PermissionMatrix) (d : String) (x : Grant)
    (hnd : (m.map Prod.fst).Nodup) :
    x ∈ translateGrants m d ↔ ∃ p, matrixGet m x.principal d = some p ∧
      (x = ⟨x.principal, .access, d⟩ ∨
        (p.Data.NativePermission = "write" ∧ x = ⟨x.principal, .write, d⟩)) := by
  rw [mem_translateGrants]
  constructor
  · rintro ⟨g, dbs, hm, hx⟩
    obtain ⟨p, hp, hx2⟩ := (mem_groupGrants g dbs d x).1 hx
    have hg : x.principal = g := by
      rcases hx2 with h | ⟨_, h⟩ <;> rw [h]
    refine ⟨p, ?_, ?_⟩
    · simp [matrixGet, hg, mapLookup_eq_some_of_mem m g dbs hnd hm, hp]
    · rw [hg]; exact hx2
  · rintro ⟨p, hp, hx⟩
    unfold matrixGet at hp
    cases hl : mapLookup m x.principal with
    | none => simp [hl] at hp
    | some dbs =>
      simp [hl] at hp
      exact ⟨x.principal, dbs, mem_of_mapLookup_eq_some m _ _ hl,
        (mem_groupGrants _ dbs d x).2 ⟨p, hp, hx⟩⟩

/-! ## Enable: the not-found branch -/

/-- C1: in `EnableUserV049`, for an argument bag with a non-empty string `userId`, when
`GetUserByID` fails with an error whose gRPC status code is NotFound, `EnableUser` is invoked
exactly once, after the lookup, with the caller's argument bag; the returned error is nil when
the mutation succeeds (and then the response is the mutation's response) and otherwise the
mutation's error wrapped as "failed to enable user"; it is never the wrapped lookup error. -/
theorem enable_not_found_calls_mutation_once {σ : Type} (c : Connector σ)
    (args : Option Struct) (userId : String) (s : σ) (e : GoError)
    (hargs : hasUserId args userId)
    (hlook : (c.GetUserByID userId s).1.err = some e)
    (hnf : statusFromError e = (Code.NotFound, true)) :
    (EnableUserV049 c args s).calls = [Call.GetUserByID userId, Call.EnableUser args] ∧
    ((EnableUserV049 c args s).calls.filter Call.isEnableUser).length = 1 ∧
    (EnableUserV049 c args s).remote = (c.EnableUser args (c.GetUserByID userId s).2).2 ∧
    ∃ ret, (EnableUserV049 c args s).ret = some ret ∧
      ret.err = (c.EnableUser args (c.GetUserByID userId s).2).1.err.map
        (fmtErrorfW "failed to enable user " userId) ∧
      ret.err ≠ some (fmtErrorfW "failed to fetch user " userId e) ∧
      ((c.EnableUser args (c.GetUserByID userId s).2).1.err = none →
        ret.resp = (c.EnableUser args (c.GetUserByID userId s).2).1.resp ∧ ret.err = none) := by
  have hnf2 : isNotFound e = true := (isNotFound_iff e).2 hnf
  rw [EnableUserV049_run c args userId s hargs]
  simp only [hlook, hnf2, if_true]
  cases hm : (c.EnableUser args (c.GetUserByID userId s).2).1.err with
  | none => simp [Call.isEnableUser]
  | some e2 =>
    refine ⟨rfl, rfl, rfl, _, rfl, rfl, ?_, ?_⟩
    · intro h
      have h2 := congrArg GoError.Error (Option.some.inj h)
      simp only [fmtErrorfW, GoError.Error, String.append_assoc] at h2
      exact enable_msg_ne_fetch_msg _ _ h2
    · intro h
      cases h

/-- C1 witness: the scenario `Enable("u1")` with a NotFound lookup and a succeeding mutation. -/
theorem enable_not_found_calls_mutation_once_witness :
    hasUserId (argsFor "u1") "u1" ∧
    statusFromError (.statusError Code.NotFound "user not found") = (Code.NotFound, true) ∧
    (EnableUserV049 (scripted ⟨none, none, some (.statusError Code.NotFound "user not found")⟩
        ⟨some successStruct, none, none⟩) (argsFor "u1") ()).calls
      = [Call.GetUserByID "u1", Call.EnableUser (argsFor "u1")] ∧
    (EnableUserV049 (scripted ⟨none, none, some (.statusError Code.NotFound "user not found")⟩
        ⟨some successStruct, none, none⟩) (argsFor "u1") ()).ret
      = some ⟨some successStruct, [], none⟩ :=
  ⟨⟨_, rfl, rfl, by decide⟩, rfl,
    (enable_not_found_calls_mutation_once
      (scripted ⟨none, none, some (.statusError Code.NotFound "user not found")⟩
        ⟨some successStruct, none, none⟩)
      (argsFor "u1") "u1" () (.statusError Code.NotFound "user not found")
      ⟨_, rfl, rfl, by decide⟩ rfl rfl).1, rfl⟩

/-! ## Enable: the already-active branch -/

/-- C2: in `EnableUserV049`, for an argument bag with a non-empty string `userId`, when
`GetUserByID` returns a nil error, only the lookup is called (`EnableUser` zero times) and the
handler returns the struct `{success: true}` with a nil error, whatever user record (nil, active
or inactive) the lookup returned. -/
theorem enable_already_active_is_noop {σ : Type} (c : Connector σ)
    (args : Option Struct) (userId : String) (s : σ)
    (hargs : hasUserId args userId)
    (hlook : (c.GetUserByID userId s).1.err = none) :
    (EnableUserV049 c args s).calls = [Call.GetUserByID userId] ∧
    ((EnableUserV049 c args s).calls.filter Call.isEnableUser).length = 0 ∧
    (EnableUserV049 c args s).remote = (c.GetUserByID userId s).2 ∧
    ∃ ret, (EnableUserV049 c args s).ret = some ret ∧
      ret.resp = some successStruct ∧ ret.err = none := by
  rw [EnableUserV049_run c args userId s hargs]
  simp [hlook, Call.isEnableUser]

/-- C2 witness: the lookup succeeds with an inactive user record; still no mutation. -/
theorem enable_already_active_is_noop_witness :
    hasUserId (argsFor "u1") "u1" ∧
    ((scripted ⟨some ⟨false⟩, none, none⟩ ⟨none, none, none⟩).GetUserByID "u1" ()).1.err = none ∧
    (EnableUserV049 (scripted ⟨some ⟨false⟩, none, none⟩ ⟨none, none, none⟩)
        (argsFor "u1") ()).calls = [Call.GetUserByID "u1"] :=
  ⟨⟨_, rfl, rfl, by decide⟩, rfl,
    (enable_already_active_is_noop (scripted ⟨some ⟨false⟩, none, none⟩ ⟨none, none, none⟩)
      (argsFor "u1") "u1" () ⟨_, rfl, rfl, by decide⟩ rfl).1⟩

/-! ## Disable: the minimal mutation -/

/-- C3: in `DisableUserV049`, for an argument bag with a non-empty string `userId`, the
`DisableUser` mutation is invoked exactly once if and only if `GetUserByID` returns a nil error
and a user with `IsActive == true`; any invocation carries the caller's argument bag; and when
the lookup fails with NotFound, or succeeds with a non-nil user whose `IsActive == false`, only
the lookup is called and the handler returns `{success: true}` with a nil error. -/
theorem disable_calls_mutation_iff_active {σ : Type} (c : Connector σ)
    (args : Option Struct) (userId : String) (s : σ)
    (hargs : hasUserId args userId) :
    (((DisableUserV049 c args s).calls.filter Call.isDisableUser).length = 1 ↔
      ((c.GetUserByID userId s).1.err = none ∧
        ∃ u, (c.GetUserByID userId s).1.user = some u ∧ u.IsActive = true)) ∧
    ((DisableUserV049 c args s).calls.filter Call.isDisableUser = [Call.DisableUser args] ∨
      (DisableUserV049 c args s).calls.filter Call.isDisableUser = []) ∧
    (((∃ e, (c.GetUserByID userId s).1.err = some e ∧
          statusFromError e = (Code.NotFound, true)) ∨
        ((c.GetUserByID userId s).1.err = none ∧
          ∃ u, (c.GetUserByID userId s).1.user = some u ∧ u.IsActive = false)) →
      (DisableUserV049 c args s).calls = [Call.GetUserByID userId] ∧
      ∃ ret, (DisableUserV049 c args s).ret = some ret ∧
        ret.resp = some successStruct ∧ ret.err = none) := by
  rw [DisableUserV049_run c args userId s hargs]
  cases hl : (c.GetUserByID userId s).1.err with
  | some e =>
    by_cases hnf : isNotFound e = true
    · simp [hnf, Call.isDisableUser]
    · have hnf2 : ¬ statusFromError e = (Code.NotFound, true) :=
        fun h => hnf ((isNotFound_iff e).2 h)
      simp [hnf, hnf2, Call.isDisableUser]
  | none =>
    cases hu : (c.GetUserByID userId s).1.user with
    | none => simp [Call.isDisableUser]
    | some u =>
      cases ha : u.IsActive with
      | false => simp [ha, Call.isDisableUser]
      | true =>
        cases hm : (c.DisableUser args (c.GetUserByID userId s).2).1.err <;>
          simp [ha, Call.isDisableUser]

/-- C3 witness: the scenario `Disable("u2")` where the lookup returns `{IsActive:false}`. -/
theorem disable_calls_mutation_iff_active_witness :
    hasUserId (argsFor "u2") "u2" ∧
    (DisableUserV049 (scripted ⟨some ⟨false⟩, none, none⟩ ⟨none, none, none⟩)
        (argsFor "u2") ()).calls = [Call.GetUserByID "u2"] ∧
    (DisableUserV049 (scripted ⟨some ⟨false⟩, none, none⟩ ⟨none, none, none⟩)
        (argsFor "u2") ()).ret = some ⟨some successStruct, [], none⟩ :=
  ⟨⟨_, rfl, rfl, by decide⟩,
    ((disable_calls_mutation_iff_active
      (scripted ⟨some ⟨false⟩, none, none⟩ ⟨none, none, none⟩) (argsFor "u2") "u2" ()
      ⟨_, rfl, rfl, by decide⟩).2.2 (Or.inr ⟨rfl, ⟨false⟩, rfl, rfl⟩)).1, rfl⟩

/-! ## Lookup failures other than not-found -/

/-- C4: in both handlers, for an argument bag with a non-empty string `userId`, when
`GetUserByID` fails with an error that is not classified as gRPC NotFound, only the lookup is
called (no mutation), the result is nil, and the returned error has the message
"failed to fetch user <userId>: <cause message>" and wraps the cause. -/
theorem lookup_failure_aborts {σ : Type} (c : Connector σ)
    (args : Option Struct) (userId : String) (s : σ) (e : GoError)
    (hargs : hasUserId args userId)
    (hlook : (c.GetUserByID userId s).1.err = some e)
    (hnot : statusFromError e ≠ (Code.NotFound, true)) :
    (EnableUserV049 c args s).calls = [Call.GetUserByID userId] ∧
    (DisableUserV049 c args s).calls = [Call.GetUserByID userId] ∧
    (∃ r1, (EnableUserV049 c args s).ret = some r1 ∧ r1.resp = none ∧
      r1.err = some (fmtErrorfW "failed to fetch user " userId e)) ∧
    (∃ r2, (DisableUserV049 c args s).ret = some r2 ∧ r2.resp = none ∧
      r2.err = some (fmtErrorfW "failed to fetch user " userId e)) ∧
    (fmtErrorfW "failed to fetch user " userId e).Error
      = "failed to fetch user " ++ userId ++ ": " ++ e.Error ∧
    (fmtErrorfW "failed to fetch user " userId e).Unwrap = some e := by
  have hnf : ¬ isNotFound e = true := fun h => hnot ((isNotFound_iff e).1 h)
  rw [EnableUserV049_run c args userId s hargs, DisableUserV049_run c args userId s hargs]
  simp [hlook, hnf, fmtErrorfW, GoError.Error, GoError.Unwrap]

/-- C4 witness: the lookup fails with a gRPC Internal error. -/
theorem lookup_failure_aborts_witness :
    hasUserId (argsFor "u1") "u1" ∧
    statusFromError (.statusError Code.Internal "boom") ≠ (Code.NotFound, true) ∧
    (EnableUserV049 (scripted ⟨none, none, some (.statusError Code.Internal "boom")⟩
        ⟨some successStruct, none, none⟩) (argsFor "u1") ()).calls = [Call.GetUserByID "u1"] ∧
    (fmtErrorfW "failed to fetch user " "u1" (.statusError Code.Internal "boom")).Error
      = "failed to fetch user u1: rpc error: code = Internal desc = boom" :=
  ⟨⟨_, rfl, rfl, by decide⟩, by decide,
    (lookup_failure_aborts
      (scripted ⟨none, none, some (.statusError Code.Internal "boom")⟩
        ⟨some successStruct, none, none⟩)
      (argsFor "u1") "u1" () (.statusError Code.Internal "boom")
      ⟨_, rfl, rfl, by decide⟩ rfl (by decide)).1, by decide⟩

/-! ## Argument validation -/

/-- C5: in both handlers, for a non-nil argument bag in which the key `userId` is absent, maps
to a nil value, or maps to a value that is the empty string or is not of string kind, the
handler returns a nil result, an empty annotation set and a non-nil error ("userId field is
required" for absent/nil, "userId cannot be empty" otherwise), makes no remote call at all and
leaves the remote state untouched. -/
theorem missing_or_empty_userId_rejected {σ : Type} (c : Connector σ) (a : Struct) (s : σ)
    (h : mapLookup a.Fields "userId" = none ∨ mapLookup a.Fields "userId" = some none ∨
      ∃ v, mapLookup a.Fields "userId" = some (some v) ∧
        (v = Value.stringValue "" ∨ ∀ str, v ≠ Value.stringValue str)) :
    ∃ msg,
      EnableUserV049 c (some a) s = ⟨some ⟨none, [], some (.errorString msg)⟩, [], s⟩ ∧
      DisableUserV049 c (some a) s = ⟨some ⟨none, [], some (.errorString msg)⟩, [], s⟩ ∧
      ((mapLookup a.Fields "userId" = none ∨ mapLookup a.Fields "userId" = some none) →
        msg = "userId field is required") ∧
      ((∃ v, mapLookup a.Fields "userId" = some (some v)) → msg = "userId cannot be empty") := by
  rcases h with h | h | ⟨v, h, hv⟩
  · exact ⟨"userId field is required", by simp [EnableUserV049, h, Annotations.New],
      by simp [DisableUserV049, h, Annotations.New], fun _ => rfl, by simp [h]⟩
  · exact ⟨"userId field is required", by simp [EnableUserV049, h, Annotations.New],
      by simp [DisableUserV049, h, Annotations.New], fun _ => rfl, by simp [h]⟩
  · have hs : GetStringValue (some v) = "" := by
      rcases hv with rfl | hv
      · rfl
      · cases v <;> first | rfl | exact absurd rfl (hv _)
    exact ⟨"userId cannot be empty", by simp [EnableUserV049, h, hs, Annotations.New],
      by simp [DisableUserV049, h, hs, Annotations.New], by simp [h], fun _ => rfl⟩

/-- C5 witness: a bag whose `userId` is a number is rejected before any remote call. -/
theorem missing_or_empty_userId_rejected_witness :
    ∃ msg,
      EnableUserV049 modelRemote (some ⟨[("userId", some (Value.numberValue 7))]⟩) ["u1"]
        = ⟨some ⟨none, [], some (.errorString msg)⟩, [], ["u1"]⟩ ∧
      DisableUserV049 modelRemote (some ⟨[("userId", some (Value.numberValue 7))]⟩) ["u1"]
        = ⟨some ⟨none, [], some (.errorString msg)⟩, [], ["u1"]⟩ ∧
      ((mapLookup [("userId", some (Value.numberValue 7))] "userId" = none ∨
          mapLookup [("userId", some (Value.numberValue 7))] "userId" = some none) →
        msg = "userId field is required") ∧
      ((∃ v, mapLookup [("userId", some (Value.numberValue 7))] "userId" = some (some v)) →
        msg = "userId cannot be empty") :=
  missing_or_empty_userId_rejected modelRemote ⟨[("userId", some (Value.numberValue 7))]⟩ ["u1"]
    (Or.inr (Or.inr ⟨Value.numberValue 7, rfl, Or.inr (fun _ h => Value.noConfusion h)⟩))

/-! ## Rate-limit annotations -/

theorem mem_withRateLimit_new (d : RateLimitDescription) :
    AnyMsg.rateLimit d ∈ withRateLimit Annotations.New (some d) := by
  simp [withRateLimit, Annotations.WithRateLimiting, Annotations.Update, Annotations.New]

/-- C7: for an argument bag with a non-empty string `userId`, whenever `EnableUserV049`
invokes `EnableUser` and it fails with cause `e`, the handler returns a nil result and the error
with message "failed to enable user <userId>: <e's message>" wrapping `e`; likewise for
`DisableUserV049` with "failed to disable user"; and when the invoked mutation succeeds the
handler returns the mutation's response unchanged with a nil error. -/
theorem mutation_outcome_propagated {σ : Type} (c : Connector σ)
    (args : Option Struct) (userId : String) (s : σ)
    (hargs : hasUserId args userId) :
    (Call.EnableUser args ∈ (EnableUserV049 c args s).calls →
      ∃ ret, (EnableUserV049 c args s).ret = some ret ∧
        (∀ e, (c.EnableUser args (c.GetUserByID userId s).2).1.err = some e →
          ret.resp = none ∧
          ret.err = some (fmtErrorfW "failed to enable user " userId e) ∧
          (fmtErrorfW "failed to enable user " userId e).Error
            = "failed to enable user " ++ userId ++ ": " ++ e.Error ∧
          (fmtErrorfW "failed to enable user " userId e).Unwrap = some e) ∧
        ((c.EnableUser args (c.GetUserByID userId s).2).1.err = none →
          ret.resp = (c.EnableUser args (c.GetUserByID userId s).2).1.resp ∧ ret.err = none)) ∧
    (Call.DisableUser args ∈ (DisableUserV049 c args s).calls →
      ∃ ret, (DisableUserV049 c args s).ret = some ret ∧
        (∀ e, (c.DisableUser args (c.GetUserByID userId s).2).1.err = some e →
          ret.resp = none ∧
          ret.err = some (fmtErrorfW "failed to disable user " userId e) ∧
          (fmtErrorfW "failed to disable user " userId e).Error
            = "failed to disable user " ++ userId ++ ": " ++ e.Error ∧
          (fmtErrorfW "failed to disable user " userId e).Unwrap = some e) ∧
        ((c.DisableUser args (c.GetUserByID userId s).2).1.err = none →
          ret.resp = (c.DisableUser args (c.GetUserByID userId s).2).1.resp ∧
          ret.err = none)) := by
  constructor
  · rw [EnableUserV049_run c args userId s hargs]
    cases hl : (c.GetUserByID userId s).1.err with
    | none => simp
    | some e =>
      by_cases hnf : isNotFound e = true
      · cases hm : (c.EnableUser args (c.GetUserByID userId s).2).1.err <;>
          simp [hnf, fmtErrorfW, GoError.Error, GoError.Unwrap]
      · simp [hnf]
  · rw [DisableUserV049_run c args userId s hargs]
    cases hl : (c.GetUserByID userId s).1.err with
    | none =>
      cases hu : (c.GetUserByID userId s).1.user with
      | none => simp
      | some u =>
        cases ha : u.IsActive with
        | false => simp [ha]
        | true =>
          cases hm : (c.DisableUser args (c.GetUserByID userId s).2).1.err <;>
            simp [ha, fmtErrorfW, GoError.Error, GoError.Unwrap]
    | some e =>
      by_cases hnf : isNotFound e = true
      · simp [hnf]
      · simp [hnf]

/-- C7 witness: the lookup finds an active user and the disable mutation fails with "boom". -/
theorem mutation_outcome_propagated_witness :
    hasUserId (argsFor "u1") "u1" ∧
    (DisableUserV049 (scripted ⟨some ⟨true⟩, none, none⟩ ⟨none, none, some (.errorString "boom")⟩)
        (argsFor "u1") ()).ret
      = some ⟨none, [], some (.wrapError "failed to disable user u1: boom" (.errorString "boom"))⟩ ∧
    ∃ ret, (DisableUserV049
        (scripted ⟨some ⟨true⟩, none, none⟩ ⟨none, none, some (.errorString "boom")⟩)
        (argsFor "u1") ()).ret = some ret ∧
      ret.err = some (fmtErrorfW "failed to disable user " "u1" (.errorString "boom")) :=
  ⟨⟨_, rfl, rfl, by decide⟩, rfl,
    ((mutation_outcome_propagated
      (scripted ⟨some ⟨true⟩, none, none⟩ ⟨none, none, some (.errorString "boom")⟩)
      (argsFor "u1") "u1" () ⟨_, rfl, rfl, by decide⟩).2
      (List.mem_cons_of_mem _ (List.mem_singleton.2 rfl))).imp
      (fun _ h => ⟨h.1, (h.2.1 _ rfl).2.1⟩)⟩

/-! ## Idempotence of Enable -/

/-- C8: over any remote with a notion of active users such that the lookup succeeds exactly on
active users, answers NotFound on the others and does not change who is active, and such that
`EnableUser` on this argument bag succeeds with a success response and leaves the user active:
for an initially inactive, non-empty `userId`, two `EnableUserV049` invocations in sequence make
exactly one `EnableUser` call in total (one in the first, none in the second), both return a nil
error and a success result, and the user is active after each of them. -/
theorem enable_twice_is_idempotent {σ : Type} (c : Connector σ) (active : σ → String → Prop)
    (args : Option Struct) (userId : String) (s : σ)
    (hargs : hasUserId args userId)
    (hfound : ∀ st id, active st id → (c.GetUserByID id st).1.err = none)
    (hmissing : ∀ st id, ¬ active st id →
      ∃ e, (c.GetUserByID id st).1.err = some e ∧ statusFromError e = (Code.NotFound, true))
    (hread : ∀ st id u, active (c.GetUserByID id st).2 u ↔ active st u)
    (henable : ∀ st, (c.EnableUser args st).1.err = none ∧
      isSuccess (c.EnableUser args st).1.resp ∧ active (c.EnableUser args st).2 userId)
    (hinactive : ¬ active s userId) :
    ((EnableUserV049 c args s).calls.filter Call.isEnableUser).length = 1 ∧
    ((EnableUserV049 c args (EnableUserV049 c args s).remote).calls.filter
      Call.isEnableUser).length = 0 ∧
    (((EnableUserV049 c args s).calls ++
      (EnableUserV049 c args (EnableUserV049 c args s).remote).calls).filter
        Call.isEnableUser).length = 1 ∧
    (∃ r1, (EnableUserV049 c args s).ret = some r1 ∧ r1.err = none ∧ isSuccess r1.resp) ∧
    (∃ r2, (EnableUserV049 c args (EnableUserV049 c args s).remote).ret = some r2 ∧
      r2.err = none ∧ isSuccess r2.resp) ∧
    active (EnableUserV049 c args s).remote userId ∧
    active (EnableUserV049 c args (EnableUserV049 c args s).remote).remote userId := by
  obtain ⟨e, hl, hnf⟩ := hmissing s userId hinactive
  have hnf2 : isNotFound e = true := (isNotFound_iff e).2 hnf
  obtain ⟨hmerr, hmsucc, hmact⟩ := henable (c.GetUserByID userId s).2
  have h1 : EnableUserV049 c args s =
      ⟨some ⟨(c.EnableUser args (c.GetUserByID userId s).2).1.resp,
          mergeAnn (withRateLimit Annotations.New (c.GetUserByID userId s).1.rateLimitDesc)
            (c.EnableUser args (c.GetUserByID userId s).2).1.ann, none⟩,
        [Call.GetUserByID userId, Call.EnableUser args],
        (c.EnableUser args (c.GetUserByID userId s).2).2⟩ := by
    rw [EnableUserV049_run c args userId s hargs]
    simp only [hl, hnf2, if_true, hmerr]
  have hact1 : active (EnableUserV049 c args s).remote userId := by rw [h1]; exact hmact
  have h2 : EnableUserV049 c args (EnableUserV049 c args s).remote =
      ⟨some ⟨some successStruct,
          withRateLimit Annotations.New
            (c.GetUserByID userId (EnableUserV049 c args s).remote).1.rateLimitDesc, none⟩,
        [Call.GetUserByID userId],
        (c.GetUserByID userId (EnableUserV049 c args s).remote).2⟩ := by
    rw [EnableUserV049_run c args userId _ hargs]
    simp only [hfound _ _ hact1]
  have hact2 : active (EnableUserV049 c args (EnableUserV049 c args s).remote).remote userId := by
    rw [h2]; exact (hread _ _ _).2 hact1
  refine ⟨?_, ?_, ?_, ?_, ?_, hact1, hact2⟩
  · rw [h1]; rfl
  · rw [h2]; rfl
  · rw [h2, h1]; rfl
  · rw [h1]; exact ⟨_, rfl, rfl, hmsucc⟩
  · rw [h2]; exact ⟨_, rfl, rfl, _, rfl, rfl⟩

/-- C8 witness: the model remote with no active user, enabling "u1" twice. -/
theorem enable_twice_is_idempotent_witness :
    hasUserId (argsFor "u1") "u1" ∧ ¬ ("u1" ∈ ([] : List String)) ∧
    ((EnableUserV049 modelRemote (argsFor "u1") []).calls.filter Call.isEnableUser).length = 1 ∧
    ((EnableUserV049 modelRemote (argsFor "u1")
      (EnableUserV049 modelRemote (argsFor "u1") []).remote).calls.filter
        Call.isEnableUser).length = 0 ∧
    "u1" ∈ (EnableUserV049 modelRemote (argsFor "u1")
      (EnableUserV049 modelRemote (argsFor "u1") []).remote).remote :=
  have h := enable_twice_is_idempotent modelRemote (fun st id => id ∈ st)
    (argsFor "u1") "u1" [] ⟨_, rfl, rfl, by decide⟩
    (fun st id hin => by simp [modelRemote, hin])
    (fun st id hout => by simp [modelRemote, hout, statusFromError, grpcStatusOf])
    (fun st id u => by
      by_cases hin : id ∈ st <;> simp [modelRemote, hin])
    (fun st => ⟨rfl, ⟨_, rfl, rfl⟩, List.mem_cons_self _ _⟩)
    (List.not_mem_nil _)
  ⟨⟨_, rfl, rfl, by decide⟩, List.not_mem_nil _, h.1, h.2.1, h.2.2.2.2.2.2⟩

/-- C9: (against the spec-modelled `Grants`) for every permission matrix returned without error
(a map: each group key once) and the database id `d` of the resource, `Grants` returns no error
and emits, for each group `g`, an access grant `(g, d)` iff the matrix has an entry for `d`
under `g`, and a write grant `(g, d)` iff that entry exists and its `Data.NativePermission` is
exactly "write"; so a write grant comes with an access grant for the same group and database,
a group with no entry for `d` gets no grant, and every grant is for database `d`. -/
theorem grants_match_reference (GetDBPermissions : String → MatrixResult) (resource : Resource)
    (hok : (GetDBPermissions resource.Id.Resource).err = none)
    (hnd : ((GetDBPermissions resource.Id.Resource).matrix.map Prod.fst).Nodup) :
    (Grants GetDBPermissions resource).err = none ∧
    ∃ gs, (Grants GetDBPermissions resource).grants = some gs ∧
      (∀ x ∈ gs, x.resource = resource.Id.Resource) ∧
      ∀ g : String,
        ((⟨g, .access, resource.Id.Resource⟩ : Grant) ∈ gs ↔
          ∃ p, matrixGet (GetDBPermissions resource.Id.Resource).matrix g resource.Id.Resource
            = some p) ∧
        ((⟨g, .write, resource.Id.Resource⟩ : Grant) ∈ gs ↔
          ∃ p, matrixGet (GetDBPermissions resource.Id.Resource).matrix g resource.Id.Resource
            = some p ∧ p.Data.NativePermission = "write") ∧
        ((⟨g, .write, resource.Id.Resource⟩ : Grant) ∈ gs →
          (⟨g, .access, resource.Id.Resource⟩ : Grant) ∈ gs) ∧
        (matrixGet (GetDBPermissions resource.Id.Resource).matrix g resource.Id.Resource = none →
          ∀ x ∈ gs, x.principal ≠ g) := by
  have hacc : ∀ g : String,
      ((⟨g, .access, resource.Id.Resource⟩ : Grant) ∈
          translateGrants (GetDBPermissions resource.Id.Resource).matrix resource.Id.Resource ↔
        ∃ p, matrixGet (GetDBPermissions resource.Id.Resource).matrix g resource.Id.Resource
          = some p) := by
    intro g
    rw [mem_translateGrants_iff _ _ _ hnd]
    simp
  have hwr : ∀ g : String,
      ((⟨g, .write, resource.Id.Resource⟩ : Grant) ∈
          translateGrants (GetDBPermissions resource.Id.Resource).matrix resource.Id.Resource ↔
        ∃ p, matrixGet (GetDBPermissions resource.Id.Resource).matrix g resource.Id.Resource
          = some p ∧ p.Data.NativePermission = "write") := by
    intro g
    rw [mem_translateGrants_iff _ _ _ hnd]
    simp
  refine ⟨by simp [Grants, hok], _, by simp [Grants, hok], ?_, fun g => ⟨hacc g, hwr g, ?_, ?_⟩⟩
  · intro x hx
    obtain ⟨p, _, h | ⟨_, h⟩⟩ := (mem_translateGrants_iff _ _ _ hnd).1 hx <;> rw [h]
  · intro h
    obtain ⟨p, hp, _⟩ := (hwr g).1 h
    exact (hacc g).2 ⟨p, hp⟩
  · intro hnone x hx hg
    obtain ⟨p, hp, _⟩ := (mem_translateGrants_iff _ _ _ hnd).1 hx
    rw [hg, hnone] at hp
    cases hp

/-- C9 witness: the matrix of the grants test for database "1" yields exactly
(group3, access), (group3, write), (group4, access), no error and no annotations. -/
theorem grants_match_reference_witness :
    ((testMatrix.map Prod.fst).Nodup) ∧
    (Grants (fun _ => ⟨testMatrix, none, none⟩) (dbResource "database")).err = none ∧
    (Grants (fun _ => ⟨testMatrix, none, none⟩) (dbResource "database")).grants
      = some [⟨"group3", .access, "1"⟩, ⟨"group3", .write, "1"⟩, ⟨"group4", .access, "1"⟩] ∧
    (Grants (fun _ => ⟨testMatrix, none, none⟩) (dbResource "database")).ann = [] ∧
    (⟨"group4", .write, "1"⟩ : Grant) ∉
      [(⟨"group3", .access, "1"⟩ : Grant), ⟨"group3", .write, "1"⟩, ⟨"group4", .access, "1"⟩] :=
  ⟨by decide,
    (grants_match_reference (fun _ => ⟨testMatrix, none, none⟩) (dbResource "database") rfl
      (by decide)).1,
    rfl, rfl, by decide⟩

/-- C10: (against the spec-modelled `Grants`) for every database resource, if `GetDBPermissions`
returns an error `e`, `Grants` returns nil grants and a non-nil error that wraps `e` and whose
message is, hence contains, "failed to list database permissions: <e's message>"; and if a
rate-limit descriptor came with `e`, the returned annotation set is non-empty and holds it. -/
theorem grants_fetch_failure (GetDBPermissions : String → MatrixResult) (resource : Resource)
    (e : GoError) (hfail : (GetDBPermissions resource.Id.Resource).err = some e) :
    (Grants GetDBPermissions resource).grants = none ∧
    (∃ err, (Grants GetDBPermissions resource).err = some err ∧
      err.Error = "failed to list database permissions: " ++ e.Error ∧
      containsStr err.Error ("failed to list database permissions: " ++ e.Error) ∧
      err.Unwrap = some e) ∧
    (∀ d, (GetDBPermissions resource.Id.Resource).rateLimit = some d →
      (Grants GetDBPermissions resource).ann ≠ [] ∧
      AnyMsg.rateLimit d ∈ (Grants GetDBPermissions resource).ann) := by
  refine ⟨by simp [Grants, hfail],
    ⟨.wrapError ("failed to list database permissions: " ++ e.Error) e,
      by simp [Grants, hfail], rfl, ⟨"", "", ?_⟩, rfl⟩, ?_⟩
  · simp [GoError.Error]
  · intro d hd
    have hmem : AnyMsg.rateLimit d ∈ (Grants GetDBPermissions resource).ann := by
      simp only [Grants, hfail, hd]
      exact mem_withRateLimit_new d
    exact ⟨List.ne_nil_of_mem hmem, hmem⟩

/-- C10 witness: the fetch fails with "rate limit error" next to a descriptor with limit 50 and
nothing remaining. -/
theorem grants_fetch_failure_witness :
    (Grants (fun _ => ⟨[], some ⟨0, 50, 0, none⟩, some (.errorString "rate limit error")⟩)
      (dbResource "database")).grants = none ∧
    (Grants (fun _ => ⟨[], some ⟨0, 50, 0, none⟩, some (.errorString "rate limit error")⟩)
      (dbResource "database")).ann ≠ [] :=
  ⟨(grants_fetch_failure
      (fun _ => ⟨[], some ⟨0, 50, 0, none⟩, some (.errorString "rate limit error")⟩)
      (dbResource "database") (.errorString "rate limit error") rfl).1,
    ((grants_fetch_failure
      (fun _ => ⟨[], some ⟨0, 50, 0, none⟩, some (.errorString "rate limit error")⟩)
      (dbResource "database") (.errorString "rate limit error") rfl).2.2 _ rfl).1⟩

end Metabase049
